import Mathlib

/-!
# Verification of the protego session/encryption core

Shallow embedding of the protego repository's core components and proofs of
the specification claims about them:

* `RedisService` (`storeSession`, `checkSessionStatus`, `get`/`set`/`delete`)
  over a key-value store with per-key TTL expiry;
* `AuthService` (`login`, `verifySession`, `createErrorResponse`);
* `ApiKeyService.validateApiKey`;
* `DecryptPayloadInterceptor.intercept`;
* `EncryptionService` / `ApiEncryptionHelper` key derivation and the
  AES-256-GCM encrypt/decrypt wrappers.

Conventions of the embedding:

* JavaScript strings are Lean `String`s (key material is ASCII, where the
  distinction between UTF-16 code units, code points and UTF-8 bytes
  vanishes; theorems about byte conversions carry an explicit ASCII
  hypothesis).
* Times are integers.  The store clock is in seconds; `Date.toISOString()`
  is modelled as an injective decimal rendering of the instant.
* JavaScript truthiness of a nullable string (`if (s)`) is
  `jsTruthyStr : Option String → Bool`: `null`/`undefined` and the empty
  string are falsy.
* Fallible external calls are `Except Unit` values (or functions returning
  them) supplied as explicit arguments; a thrown exception is `.error ()`.
-/

set_option autoImplicit false

namespace Protego

/-- JavaScript truthiness of a nullable string value: `null`/`undefined`
(`none`) and the empty string are falsy, every other string is truthy. -/
def jsTruthyStr : Option String → Bool
  | none => false
  | some s => s ≠ ""

/-! ## Hex encoding and decoding

`Buffer.toString('hex')` renders each byte as two lowercase hex digits;
`Buffer.from(str, 'hex')` decodes pairs of hex digits (either case) and
stops at the first invalid pair, dropping a lone trailing digit. -/

/-- The lowercase hex digit for a value `< 16` (as produced by
`Buffer.toString('hex')`). -/
def hexDigitChar (n : Nat) : Char :=
  if n < 10 then Char.ofNat (48 + n) else Char.ofNat (87 + n)

/-- The value of a hex digit, accepting both cases as `Buffer.from(·, 'hex')`
does; `none` for a non-hex character. -/
def hexDigitVal (c : Char) : Option Nat :=
  if 48 ≤ c.toNat ∧ c.toNat ≤ 57 then some (c.toNat - 48)
  else if 97 ≤ c.toNat ∧ c.toNat ≤ 102 then some (c.toNat - 87)
  else if 65 ≤ c.toNat ∧ c.toNat ≤ 70 then some (c.toNat - 55)
  else none

/-- `Buffer.toString('hex')` on a list of bytes. -/
def bytesToHexChars : List Nat → List Char
  | [] => []
  | b :: rest => hexDigitChar (b / 16) :: hexDigitChar (b % 16) :: bytesToHexChars rest

/-- `Buffer.from(s, 'hex')`: decode pairs of hex digits, stopping at the
first invalid character and dropping a lone trailing digit. -/
def hexDecode : List Char → List Nat
  | c1 :: c2 :: rest =>
    match hexDigitVal c1, hexDigitVal c2 with
    | some h, some l => (16 * h + l) :: hexDecode rest
    | _, _ => []
  | _ => []

/-- The sixteen lowercase hex characters. -/
def lowerHexChars : List Char := "0123456789abcdef".data

theorem hexDigitChar_mem_lowerHex : ∀ n < 16, hexDigitChar n ∈ lowerHexChars := by
  decide

theorem hexDigitVal_hexDigitChar : ∀ n < 16, hexDigitVal (hexDigitChar n) = some n := by
  decide

theorem bytesToHexChars_length (l : List Nat) :
    (bytesToHexChars l).length = 2 * l.length := by
  induction l with
  | nil => rfl
  | cons b rest ih => simp [bytesToHexChars, ih]; ring

theorem bytesToHexChars_mem (l : List Nat) (hl : ∀ b ∈ l, b < 256) :
    ∀ c ∈ bytesToHexChars l, c ∈ lowerHexChars := by
  induction l with
  | nil => intro c hc; simp [bytesToHexChars] at hc
  | cons b rest ih =>
    intro c hc
    have hb : b < 256 := hl b (by simp)
    have h1 : b / 16 < 16 := by omega
    have h2 : b % 16 < 16 := Nat.mod_lt _ (by omega)
    simp only [bytesToHexChars, List.mem_cons] at hc
    rcases hc with h | h | h
    · exact h ▸ hexDigitChar_mem_lowerHex _ h1
    · exact h ▸ hexDigitChar_mem_lowerHex _ h2
    · exact ih (fun x hx => hl x (by simp [hx])) c h

theorem hexDigitVal_lt (c : Char) (n : Nat) (h : hexDigitVal c = some n) :
    n < 16 := by
  unfold hexDigitVal at h
  split_ifs at h <;> (try cases h) <;> omega

theorem hexDecode_lt : ∀ (l : List Char), ∀ b ∈ hexDecode l, b < 256
  | [] => by simp [hexDecode]
  | [_] => by simp [hexDecode]
  | c1 :: c2 :: rest => by
    intro b hb
    unfold hexDecode at hb
    cases h1 : hexDigitVal c1 with
    | none => simp [h1] at hb
    | some v1 =>
      cases h2 : hexDigitVal c2 with
      | none => simp [h1, h2] at hb
      | some v2 =>
        simp only [h1, h2, List.mem_cons] at hb
        rcases hb with hb | hb
        · have b1 := hexDigitVal_lt c1 v1 h1
          have b2 := hexDigitVal_lt c2 v2 h2
          omega
        · exact hexDecode_lt rest b hb

theorem hexDecode_bytesToHexChars (l : List Nat) (hl : ∀ b ∈ l, b < 256) :
    hexDecode (bytesToHexChars l) = l := by
  induction l with
  | nil => rfl
  | cons b rest ih =>
    have hb : b < 256 := hl b (by simp)
    have h1 : b / 16 < 16 := by omega
    have h2 : b % 16 < 16 := Nat.mod_lt _ (by omega)
    simp only [bytesToHexChars, hexDecode,
      hexDigitVal_hexDigitChar _ h1, hexDigitVal_hexDigitChar _ h2]
    rw [ih (fun x hx => hl x (by simp [hx]))]
    congr 1
    omega

/-! ## A minimal JSON model

The session store only ever serialises flat objects whose values are
primitives (`{email, timestamp}` payloads and `{createdAt, expiresAt, token}`
metadata), so `JSON.stringify` is modelled on flat objects over primitive
values. -/

/-- A primitive JSON value (the session records only contain these). -/
inductive JVal where
  | str (s : String)
  | num (n : Int)
  | bool (b : Bool)
  | null
  deriving DecidableEq

/-- A flat JSON object: an ordered list of key/value fields. -/
def JObj := List (String × JVal)

instance : DecidableEq JObj := by unfold JObj; infer_instance

/-- `JSON.stringify` of a primitive value. -/
def JVal.stringify : JVal → String
  | .str s => "\"" ++ s ++ "\""
  | .num n => toString n
  | .bool true => "true"
  | .bool false => "false"
  | .null => "null"

/-- `JSON.stringify` of a flat object. -/
def jsonStringifyObj (o : JObj) : String :=
  "\x7b" ++ String.intercalate ","
      (o.map fun kv => "\"" ++ kv.1 ++ "\":" ++ kv.2.stringify) ++ "\x7d"

theorem jsonStringifyObj_ne_empty (o : JObj) : jsonStringifyObj o ≠ "" := by
  intro h
  have hlen := congrArg String.length h
  rw [jsonStringifyObj, String.length_append, String.length_append] at hlen
  have h1 : ("\x7b" : String).length = 1 := rfl
  have h2 : ("\x7d" : String).length = 1 := rfl
  have h3 : ("" : String).length = 0 := rfl
  omega

/-! ## The Redis key-value store (`RedisService`)

The store maps keys to a value plus an optional absolute expiry instant.
`redisGet` hides entries whose expiry has been reached (Redis evicts on
TTL).  `redisSet` embeds `RedisService.set(key, value, ttl?)`: a falsy
`ttl` (absent, or the number `0`) takes the plain `SET` branch and stores
without expiry; a truthy positive `ttl` is `SETEX`; `SETEX` with a
negative number is rejected by the server, which surfaces as a thrown
error (`.error ()`). -/

/-- The state of the key-value store: value and optional absolute expiry. -/
def Store := String → Option (String × Option Int)

/-- The empty store. -/
def redisEmpty : Store := fun _ => none

/-- `RedisService.get`: `null` for a missing or TTL-expired key. -/
def redisGet (st : Store) (now : Int) (k : String) : Option String :=
  match st k with
  | none => none
  | some (v, none) => some v
  | some (v, some e) => if now < e then some v else none

/-- Write a key with no expiry (the plain `SET` branch; `SET` also clears
any previous TTL). -/
def redisSetPlain (st : Store) (k v : String) : Store :=
  fun k2 => if k2 = k then some (v, none) else st k2

/-- Write a key with an absolute expiry (the `SETEX` branch). -/
def redisSetEx (st : Store) (now : Int) (k v : String) (ttl : Int) : Store :=
  fun k2 => if k2 = k then some (v, some (now + ttl)) else st k2

/-- `RedisService.set(key, value, ttl?)`.  `if (ttl)` sends `SETEX` for a
truthy `ttl` and plain `SET` otherwise; `SETEX` rejects non-positive
seconds with a server error. -/
def redisSet (st : Store) (now : Int) (k v : String) (ttl : Option Int) :
    Except Unit Store :=
  match ttl with
  | none => .ok (redisSetPlain st k v)
  | some t =>
    if t = 0 then .ok (redisSetPlain st k v)
    else if 0 < t then .ok (redisSetEx st now k v t)
    else .error ()

/-- `RedisService.delete`. -/
def redisDelete (st : Store) (k : String) : Store :=
  fun k2 => if k2 = k then none else st k2

/-- The primary session key `session:${sessionToken}`. -/
def sessionKey (token : String) : String := "session:" ++ token

/-- The metadata key `session:metadata:${sessionToken}`. -/
def metadataKey (token : String) : String := "session:metadata:" ++ token

/-- `Date.toISOString()` for the instant `t` of the model clock, modelled
as an injective decimal rendering of the instant. -/
def jsIso (t : Int) : String := toString t

/-- The metadata object `{createdAt, expiresAt, token}` built by
`storeSession` at instant `now` for TTL `ttl`. -/
def sessionMetadataObj (now ttl : Int) (token : String) : JObj :=
  [("createdAt", .str (jsIso now)),
   ("expiresAt", .str (jsIso (now + ttl))),
   ("token", .str token)]

/-- `RedisService.storeSession(sessionToken, data, ttl)`: the session
record under `sessionKey` with TTL `ttl`, then the metadata record under
`metadataKey` with TTL `ttl * 2`. -/
def storeSession (st : Store) (now : Int) (token : String) (data : JObj)
    (ttl : Int) : Except Unit Store := do
  let st1 ← redisSet st now (sessionKey token) (jsonStringifyObj data) (some ttl)
  redisSet st1 now (metadataKey token)
    (jsonStringifyObj (sessionMetadataObj now ttl token)) (some (ttl * 2))

/-- The `{valid, expired}` pair returned by `checkSessionStatus`. -/
structure SessionStatus where
  valid : Bool
  expired : Bool
  deriving DecidableEq

/-- `RedisService.checkSessionStatus(sessionToken)`: read the session
record; if truthy, valid.  Else read the metadata record; if truthy,
expired.  Else neither. -/
def checkSessionStatus (st : Store) (now : Int) (token : String) : SessionStatus :=
  let sessionData := redisGet st now (sessionKey token)
  let metadata := redisGet st now (metadataKey token)
  if jsTruthyStr sessionData then { valid := true, expired := false }
  else if jsTruthyStr metadata then { valid := false, expired := true }
  else { valid := false, expired := false }

/-- `RedisService.deleteSession(sessionToken)`: delete both records. -/
def deleteSession (st : Store) (token : String) : Store :=
  redisDelete (redisDelete st (sessionKey token)) (metadataKey token)

theorem sessionKey_ne_metadataKey (token : String) :
    sessionKey token ≠ metadataKey token := by
  intro h
  have hlen := congrArg String.length h
  rw [sessionKey, metadataKey, String.length_append, String.length_append] at hlen
  have h1 : ("session:" : String).length = 8 := rfl
  have h2 : ("session:metadata:" : String).length = 17 := rfl
  omega

/-! ## Error codes and messages -/

/-- Modelled from the spec: the error-codes module
(`src/common/errors/error-codes`) is imported by `AuthService` but is not
in the source tree; its members are reconstructed from their uses in
`AuthService`, `messages.ts` and the `AUTH_API.md` response examples. -/
inductive ErrorCode where
  | MISSING_INFORMATION
  | EMAIL_NOT_FOUND
  | INCORRECT_PASSWORD
  | EMAIL_ALREADY_EXISTS
  | DATABASE_ERROR
  | SESSION_EXPIRED
  | SESSION_INVALID
  deriving DecidableEq, Fintype

/-- Modelled from the spec: the `ERROR_CODE_MESSAGES` map of the missing
error-codes module, reconstructed from the message texts in `messages.ts`
(`ERROR_MESSAGES`/`AUTH_MESSAGES`) and the `AUTH_API.md` error-response
examples. -/
def ERROR_CODE_MESSAGES : ErrorCode → String
  | .MISSING_INFORMATION => "Email and password are required"
  | .EMAIL_NOT_FOUND => "Email address not found in the system"
  | .INCORRECT_PASSWORD => "Password is incorrect"
  | .EMAIL_ALREADY_EXISTS => "Email already registered"
  | .DATABASE_ERROR => "Database error occurred"
  | .SESSION_EXPIRED => "Session token has expired"
  | .SESSION_INVALID => "Session token is invalid or does not exist"

/-- `AUTH_MESSAGES.LOGIN_SUCCESSFUL` from `messages.ts`. -/
def LOGIN_SUCCESSFUL_MSG : String := "Login successful"

/-- `ERROR_MESSAGES.MISSING_ENCRYPTED_PAYLOAD` from `messages.ts`. -/
def MISSING_ENCRYPTED_PAYLOAD : String := "Missing encrypted payload"

/-- `ERROR_MESSAGES.INVALID_ENCRYPTED_FORMAT` from `messages.ts`. -/
def INVALID_ENCRYPTED_FORMAT : String := "Invalid encrypted payload format"

/-! ## `AuthService` -/

/-- The `LoginResponseDto` shape (`auth.dto.ts`): optional `sessionToken`
and optional `code`; a TS object literal that omits a field leaves it
`undefined` (`none`). -/
structure LoginResponse where
  success : Bool
  sessionToken : Option String
  message : String
  code : Option ErrorCode
  timestamp : Int
  deriving DecidableEq

/-- `AuthService.createErrorResponse(code, success)`: builds the response
literal `{success, message: ERROR_CODE_MESSAGES[code], timestamp}` — the
`code` field of the DTO is not set. -/
def createErrorResponse (code : ErrorCode) (success : Bool) (now : Int) :
    LoginResponse :=
  { success := success
    sessionToken := none
    message := ERROR_CODE_MESSAGES code
    code := none
    timestamp := now }

/-- `generateSessionToken()` (`token.util.ts`):
`crypto.randomBytes(32).toString('hex')`, with the random bytes supplied
explicitly. -/
def generateSessionToken (randBytes : List Nat) : String :=
  String.mk (bytesToHexChars randBytes)

/-- Leading decimal digits of a character list folded into a number;
`none` when there is no leading digit (`parseInt` yields `NaN`). -/
def parseLeadingDigits (l : List Char) : Option Nat :=
  match l.takeWhile (fun c => '0' ≤ c ∧ c ≤ '9') with
  | [] => none
  | ds => some (ds.foldl (fun a c => 10 * a + (c.toNat - 48)) 0)

/-- JavaScript `parseInt(s)` (radix 10): skip leading whitespace, read an
optional sign and then leading decimal digits; `none` models `NaN`. -/
def jsParseInt (s : String) : Option Int :=
  let t := s.data.dropWhile (fun c => c = ' ' ∨ c = '\t' ∨ c = '\n' ∨ c = '\r')
  match t with
  | '-' :: rest => (parseLeadingDigits rest).map (fun n => -(n : Int))
  | '+' :: rest => (parseLeadingDigits rest).map (fun n => (n : Int))
  | rest => (parseLeadingDigits rest).map (fun n => (n : Int))

/-- `this.configService.get('app.jwtExpiration') || '86400'`: an absent or
empty configured value falls back to the default string. -/
def jwtExpirationOrDefault (cfg : Option String) : String :=
  match cfg with
  | none => "86400"
  | some "" => "86400"
  | some s => s

/-- The user record returned by the Neo4j lookup in `AuthService.login`. -/
structure UserRecord where
  email : String
  hashedPassword : String
  deriving DecidableEq

/-- The session payload `{email, timestamp}` stored by `login`/`signup`. -/
def loginSessionPayload (email : String) (now : Int) : JObj :=
  [("email", .str email), ("timestamp", .str (jsIso now))]

/-- `AuthService.login(credentials)`.

External collaborators are explicit arguments: `lookup` is the outcome of
the Neo4j query for the email, `cmp` is `bcryptService.compare`,
`randBytes` the output of `crypto.randomBytes(32)`, `cfg` the configured
`app.jwtExpiration` string.  When `parseInt` yields `NaN`, `storeSession`
writes the session record without TTL (a falsy `ttl` takes the plain `SET`
branch) and then throws building the metadata timestamp
(`new Date(NaN).toISOString()`), which the catch-all maps to
`DATABASE_ERROR`. -/
def login (email password : String) (lookup : Except Unit (Option UserRecord))
    (cmp : String → String → Except Unit Bool) (randBytes : List Nat)
    (cfg : Option String) (now : Int) (st : Store) : LoginResponse × Store :=
  if email = "" ∨ password = "" then
    (createErrorResponse .MISSING_INFORMATION false now, st)
  else
    match lookup with
    | .error _ => (createErrorResponse .DATABASE_ERROR false now, st)
    | .ok none => (createErrorResponse .EMAIL_NOT_FOUND false now, st)
    | .ok (some user) =>
      match cmp password user.hashedPassword with
      | .error _ => (createErrorResponse .DATABASE_ERROR false now, st)
      | .ok false => (createErrorResponse .INCORRECT_PASSWORD false now, st)
      | .ok true =>
        let sessionToken := generateSessionToken randBytes
        match jsParseInt (jwtExpirationOrDefault cfg) with
        | none =>
          (createErrorResponse .DATABASE_ERROR false now,
            redisSetPlain st (sessionKey sessionToken)
              (jsonStringifyObj (loginSessionPayload email now)))
        | some ttl =>
          match storeSession st now sessionToken (loginSessionPayload email now) ttl with
          | .error _ => (createErrorResponse .DATABASE_ERROR false now, st)
          | .ok st2 =>
            ({ success := true
               sessionToken := some sessionToken
               message := LOGIN_SUCCESSFUL_MSG
               code := none
               timestamp := now }, st2)

/-- The `{valid, expired, code}` triple returned by
`AuthService.verifySession`. -/
structure VerifyResult where
  valid : Bool
  expired : Bool
  code : Option ErrorCode
  deriving DecidableEq

/-- `AuthService.verifySession(sessionToken)` as a function of the outcome
of the `checkSessionStatus` call (`.error ()` when the store call throws).
The function is total: every outcome is mapped to a result, nothing
propagates to the caller. -/
def verifySession (storeResult : Except Unit SessionStatus) : VerifyResult :=
  match storeResult with
  | .error _ => { valid := false, expired := false, code := some .DATABASE_ERROR }
  | .ok status =>
    if status.valid then { valid := true, expired := false, code := none }
    else if status.expired then
      { valid := false, expired := true, code := some .SESSION_EXPIRED }
    else { valid := false, expired := false, code := some .SESSION_INVALID }

/-! ## `ApiKeyService` -/

/-- The fields of an API-key record relevant to validation. -/
structure ApiKeyData where
  apiKey : String
  clientName : String
  isActive : Bool
  deriving DecidableEq

/-- `ApiKeyService.validateApiKey(apiKey)` as a function of its two
external calls: `lookup` is `cassandraService.getApiKey(apiKey)` and
`update` is `cassandraService.updateLastUsed(apiKey)` (which rethrows
query errors).  Both calls happen inside the `try`; the catch-all returns
`false`. -/
def validateApiKey (lookup : Except Unit (Option ApiKeyData))
    (update : Except Unit Unit) : Bool :=
  match lookup with
  | .error _ => false
  | .ok none => false
  | .ok (some keyData) =>
    if !keyData.isActive then false
    else
      match update with
      | .error _ => false
      | .ok _ => true

/-! ## `DecryptPayloadInterceptor` -/

/-- The request body as seen by the interceptor: the three optional
envelope fields plus any other fields the JSON object carried. -/
structure ReqBody where
  ciphertext : Option String
  iv : Option String
  authTag : Option String
  rest : List (String × String)
  deriving DecidableEq

/-- Outcome of the decrypt gate: reject with a `BadRequestException`
message, pass the body through unchanged, or replace it with the parsed
plaintext. -/
inductive InterceptResult (α : Type) where
  | reject (msg : String)
  | passthrough (body : Option ReqBody)
  | replaced (parsed : α)
  deriving DecidableEq

/-- `['POST', 'PUT', 'PATCH'].includes(request.method)`. -/
def isMutatingMethod (m : String) : Bool :=
  m = "POST" || m = "PUT" || m = "PATCH"

/-- `DecryptPayloadInterceptor.intercept` for one request.

`decryptFn` is `encryptionService.decryptFromRequest` and `parseJson` is
`JSON.parse`, both supplied as explicit fallible functions.  For a
mutating method: a falsy body is rejected with
`MISSING_ENCRYPTED_PAYLOAD`; a body with any falsy envelope field passes
through unchanged; otherwise decrypt-then-parse either replaces the body
or is rejected with the single generic `INVALID_ENCRYPTED_FORMAT`
message. -/
def intercept {α : Type} (method : String) (body : Option ReqBody)
    (decryptFn : ReqBody → Except Unit String)
    (parseJson : String → Except Unit α) : InterceptResult α :=
  if isMutatingMethod method then
    match body with
    | none => .reject MISSING_ENCRYPTED_PAYLOAD
    | some b =>
      if jsTruthyStr b.ciphertext && jsTruthyStr b.iv && jsTruthyStr b.authTag then
        match decryptFn b with
        | .error _ => .reject INVALID_ENCRYPTED_FORMAT
        | .ok plain =>
          match parseJson plain with
          | .error _ => .reject INVALID_ENCRYPTED_FORMAT
          | .ok parsed => .replaced parsed
      else .passthrough (some b)
  else .passthrough body

/-! ## `EncryptionService` and `ApiEncryptionHelper`

The AES-256-GCM primitive itself lives in the external `crypto` library;
it is modelled by its mode structure: GCM encrypts by XORing the plaintext
with a CTR keystream determined by the key and IV, and authenticates with
a tag computed from the ciphertext under the same key and IV.  The
keystream (`ks`, one byte per index) and tag function (`mac`) are explicit
arguments; `decipher.final()` throws on a tag mismatch. -/

/-- XOR a byte list against keystream bytes starting at index `i`. -/
def xorStream (ks : Nat → Nat) : Nat → List Nat → List Nat
  | _, [] => []
  | i, b :: rest => (b ^^^ ks i) :: xorStream ks (i + 1) rest

theorem xorStream_xorStream (ks : Nat → Nat) (i : Nat) (l : List Nat) :
    xorStream ks i (xorStream ks i l) = l := by
  induction l generalizing i with
  | nil => rfl
  | cons b rest ih => simp [xorStream, Nat.xor_cancel_right, ih]

theorem xorStream_lt (ks : Nat → Nat) (hks : ∀ i, ks i < 256) (i : Nat)
    (l : List Nat) (hl : ∀ b ∈ l, b < 256) : ∀ b ∈ xorStream ks i l, b < 256 := by
  induction l generalizing i with
  | nil => intro b hb; simp [xorStream] at hb
  | cons x rest ih =>
    intro b hb
    simp only [xorStream, List.mem_cons] at hb
    rcases hb with h | h
    · subst h
      have hx : x < 2 ^ 8 := hl x (by simp)
      have hk : ks i < 2 ^ 8 := hks i
      exact Nat.xor_lt_two_pow hx hk
    · exact ih (i + 1) (fun y hy => hl y (by simp [hy])) b h

/-- The `EncryptedPayload` envelope (`{ciphertext, iv, authTag}`, all hex
strings). -/
structure EncryptedPayload where
  ciphertext : String
  iv : String
  authTag : String
  deriving DecidableEq

/-- `EncryptionService.encrypt(data)`: XOR the plaintext bytes with the
keystream, render ciphertext, IV, and tag as lowercase hex.  `ivBytes` is
the fresh `crypto.randomBytes(16)` for this call; `ks` and `mac` are the
keystream and tag functions the cipher derives from the key and this
IV. -/
def encrypt (ks : Nat → Nat) (mac : List Nat → List Nat) (ivBytes : List Nat)
    (data : List Nat) : EncryptedPayload :=
  let ct := xorStream ks 0 data
  { ciphertext := String.mk (bytesToHexChars ct)
    iv := String.mk (bytesToHexChars ivBytes)
    authTag := String.mk (bytesToHexChars (mac ct)) }

/-- `EncryptionService.decrypt(payload)`: decode the hex fields, verify the
tag (AEAD semantics — `decipher.final()` throws on mismatch, modelled as
`.error ()`), and XOR the ciphertext back to the plaintext bytes. -/
def decrypt (ks : Nat → Nat) (mac : List Nat → List Nat)
    (payload : EncryptedPayload) : Except Unit (List Nat) :=
  let ct := hexDecode payload.ciphertext.data
  let tag := hexDecode payload.authTag.data
  if tag = mac ct then .ok (xorStream ks 0 ct) else .error ()

/-! ### Key derivation -/

/-- `Buffer.from(s)` (UTF-8 bytes) for an ASCII string: each character is
its own byte.  Theorems using it carry an explicit ASCII hypothesis. -/
def asciiBytes (s : String) : List Nat := s.data.map Char.toNat

/-- `s.padEnd(n, c)`: right-pad with `c` up to length `n` (no-op when the
string is already at least that long). -/
def jsPadEnd (s : String) (n : Nat) (c : Char) : String :=
  String.mk (s.data ++ List.replicate (n - s.data.length) c)

/-- `s.substring(0, n)`: the first `n` characters. -/
def jsSubstringTo (s : String) (n : Nat) : String :=
  String.mk (s.data.take n)

/-- The shared key-derivation expression of `EncryptionService` and
`ApiEncryptionHelper`: use the hex interpretation when it is exactly 32
bytes, otherwise the UTF-8 bytes of
`keyStr.padEnd(32, '0').substring(0, 32)`. -/
def deriveKeyBytes (keyStr : String) : List Nat :=
  if (hexDecode keyStr.data).length = 32 then hexDecode keyStr.data
  else asciiBytes (jsSubstringTo (jsPadEnd keyStr 32 '0') 32)

/-- `ApiEncryptionHelper`'s constructor: throws for a key string shorter
than 32 characters, otherwise derives the 32-byte key. -/
def apiEncryptionHelperInit (keyStr : String) : Except String (List Nat) :=
  if keyStr.length < 32 then
    .error "Encryption key must be at least 32 characters long"
  else .ok (deriveKeyBytes keyStr)

/-- `EncryptionService.initializeKeys()` as a function of the dynamic
config value for `encryptionKey` (`none` when the lookup provides
nothing, in which case `getConfigWithFallback` returns the environment
key) and the `ENCRYPTION_KEY` environment string.  A key string shorter
than 32 characters throws inside the `try`; the catch falls back to the
environment key, which is used as its raw hex interpretation when it has
at least 32 characters (with no 32-byte check), and padded-and-truncated
otherwise. -/
def initializeKeysKey (cfgKey : Option String) (envKey : String) : List Nat :=
  let keyStr := match cfgKey with | none => envKey | some s => s
  if keyStr.length < 32 then
    if 32 ≤ envKey.length then hexDecode envKey.data
    else asciiBytes (jsSubstringTo (jsPadEnd envKey 32 '0') 32)
  else deriveKeyBytes keyStr

/-! ## Helper lemmas -/

theorem jsTruthyStr_some_of_ne {v : String} (h : v ≠ "") :
    jsTruthyStr (some v) = true := by
  simp [jsTruthyStr, h]

theorem storeSession_ok (st : Store) (now : Int) (token : String) (data : JObj)
    (ttl : Int) (hpos : 0 < ttl) :
    storeSession st now token data ttl =
      .ok (redisSetEx
            (redisSetEx st now (sessionKey token) (jsonStringifyObj data) ttl)
            now (metadataKey token)
            (jsonStringifyObj (sessionMetadataObj now ttl token)) (ttl * 2)) := by
  have ht0 : ttl ≠ 0 := by omega
  have ht2 : (0 : Int) < ttl * 2 := by omega
  have ht20 : ttl * 2 ≠ 0 := by omega
  simp [storeSession, redisSet, ht0, hpos, ht2, ht20, Bind.bind, Except.bind]

theorem redisSetEx_self (st : Store) (now : Int) (k v : String) (ttl : Int) :
    redisSetEx st now k v ttl k = some (v, some (now + ttl)) := by
  simp [redisSetEx]

theorem redisSetEx_other (st : Store) (now : Int) (k v : String) (ttl : Int)
    (k2 : String) (h : k2 ≠ k) : redisSetEx st now k v ttl k2 = st k2 := by
  simp [redisSetEx, h]

/-- Claim C1: `checkSessionStatus` classifies a token three ways, in this
order: a present (unexpired, truthy) primary session record yields
`{valid := true, expired := false}`; otherwise a present metadata record
yields `{valid := false, expired := true}`; otherwise
`{valid := false, expired := false}`.  In particular a token for which
neither record was ever stored is reported invalid-not-expired.  The
hypotheses record that stored values are nonempty strings (every record
this system writes is a `JSON.stringify` of an object). -/
theorem checkSessionStatus_three_way (st : Store) (now : Int) (token : String)
    (hs : ∀ v, redisGet st now (sessionKey token) = some v → v ≠ "")
    (hm : ∀ v, redisGet st now (metadataKey token) = some v → v ≠ "") :
    (redisGet st now (sessionKey token) ≠ none →
        checkSessionStatus st now token = { valid := true, expired := false })
  ∧ (redisGet st now (sessionKey token) = none →
      redisGet st now (metadataKey token) ≠ none →
        checkSessionStatus st now token = { valid := false, expired := true })
  ∧ (redisGet st now (sessionKey token) = none →
      redisGet st now (metadataKey token) = none →
        checkSessionStatus st now token = { valid := false, expired := false })
  ∧ (st (sessionKey token) = none → st (metadataKey token) = none →
        checkSessionStatus st now token = { valid := false, expired := false }) := by
  refine ⟨?_, ?_, ?_, ?_⟩
  · intro h
    cases hsd : redisGet st now (sessionKey token) with
    | none => exact absurd hsd h
    | some v =>
      have hv := hs v hsd
      simp [checkSessionStatus, hsd, jsTruthyStr_some_of_ne hv]
  · intro h1 h2
    cases hmd : redisGet st now (metadataKey token) with
    | none => exact absurd hmd h2
    | some v =>
      have hv := hm v hmd
      simp [checkSessionStatus, h1, hmd, jsTruthyStr, jsTruthyStr_some_of_ne hv, hv]
  · intro h1 h2
    simp [checkSessionStatus, h1, h2, jsTruthyStr]
  · intro h1 h2
    have g1 : redisGet st now (sessionKey token) = none := by simp [redisGet, h1]
    have g2 : redisGet st now (metadataKey token) = none := by simp [redisGet, h2]
    simp [checkSessionStatus, g1, g2, jsTruthyStr]

theorem checkSessionStatus_three_way_witness :
    checkSessionStatus (redisSetPlain redisEmpty (sessionKey "t") "x") 0 "t" =
      { valid := true, expired := false } := by
  refine (checkSessionStatus_three_way
    (redisSetPlain redisEmpty (sessionKey "t") "x") 0 "t" ?_ ?_).1 ?_
  · intro v hv
    have h : redisGet (redisSetPlain redisEmpty (sessionKey "t") "x") 0
        (sessionKey "t") = some "x" := by decide
    rw [h] at hv
    cases hv
    decide
  · intro v hv
    have h : redisGet (redisSetPlain redisEmpty (sessionKey "t") "x") 0
        (metadataKey "t") = none := by decide
    rw [h] at hv
    cases hv
  · decide

/-- Claim C2 counterexample: with `ttlSeconds = 0`, `storeSession` writes
the primary record with *no* expiry (the falsy `ttl` takes the plain `SET`
branch), not with TTL `0` as the claim's universal quantification over
`ttlSeconds` demands. -/
theorem storeSession_ttl_zero_counterexample :
    (storeSession redisEmpty 0 "t" [("email", JVal.str "u@x.com")] 0).map
        (fun s => s (sessionKey "t"))
      = .ok (some (jsonStringifyObj [("email", JVal.str "u@x.com")], none))
  ∧ (storeSession redisEmpty 0 "t" [("email", JVal.str "u@x.com")] 0).map
        (fun s => s (sessionKey "t"))
      ≠ .ok (some (jsonStringifyObj [("email", JVal.str "u@x.com")], some (0 + 0))) := by
  have h1 : (storeSession redisEmpty 0 "t" [("email", JVal.str "u@x.com")] 0).map
      (fun s => s (sessionKey "t"))
      = .ok (some (jsonStringifyObj [("email", JVal.str "u@x.com")], none)) := rfl
  refine ⟨h1, ?_⟩
  rw [h1]
  intro h
  simp at h

/-- Claim C2 (amended: for positive `ttlSeconds`): `storeSession` writes
exactly the two records — the primary session record holding the
serialised payload with TTL `ttlSeconds` and the metadata record holding
`{createdAt: now, expiresAt: now + ttlSeconds, token}` with TTL
`2 * ttlSeconds` — leaves every other key unchanged, and immediately
afterwards `checkSessionStatus` reports the token valid and not
expired. -/
theorem storeSession_writes_two_records (st : Store) (now : Int)
    (token : String) (data : JObj) (ttl : Int) (hpos : 0 < ttl) :
    (storeSession st now token data ttl).map (fun s => s (sessionKey token))
      = .ok (some (jsonStringifyObj data, some (now + ttl)))
  ∧ (storeSession st now token data ttl).map (fun s => s (metadataKey token))
      = .ok (some (jsonStringifyObj (sessionMetadataObj now ttl token),
                   some (now + ttl * 2)))
  ∧ (∀ k, k ≠ sessionKey token → k ≠ metadataKey token →
      (storeSession st now token data ttl).map (fun s => s k) = .ok (st k))
  ∧ (storeSession st now token data ttl).map
        (fun s => checkSessionStatus s now token)
      = .ok { valid := true, expired := false } := by
  have hne := sessionKey_ne_metadataKey token
  rw [storeSession_ok st now token data ttl hpos]
  refine ⟨?_, ?_, ?_, ?_⟩
  · simp [Except.map, redisSetEx_other _ _ _ _ _ _ hne, redisSetEx_self]
  · simp [Except.map, redisSetEx_self]
  · intro k hk1 hk2
    simp [Except.map, redisSetEx_other _ _ _ _ _ _ hk2,
      redisSetEx_other _ _ _ _ _ _ hk1]
  · have hlt : now < now + ttl := by omega
    have hvne := jsonStringifyObj_ne_empty data
    simp [Except.map, checkSessionStatus, redisGet,
      redisSetEx_other _ _ _ _ _ _ hne, redisSetEx_self, hlt,
      jsTruthyStr_some_of_ne hvne]

theorem storeSession_writes_two_records_witness :
    (storeSession redisEmpty 0 "t" [("email", JVal.str "u@x.com")] 1).map
        (fun s => checkSessionStatus s 0 "t")
      = .ok { valid := true, expired := false } :=
  (storeSession_writes_two_records redisEmpty 0 "t"
    [("email", JVal.str "u@x.com")] 1 (by decide)).2.2.2

/-- Claim C3: `verifySession` maps the store outcome to exactly one of the
four results — valid (`code = null`), expired (`SESSION_EXPIRED`), neither
(`SESSION_INVALID`), or store error (`DATABASE_ERROR`).  `verifySession`
is a total function of the store outcome: the catch-all means it never
throws to its caller. -/
theorem verifySession_cases (s : SessionStatus) :
    (s.valid = true →
        verifySession (.ok s) = { valid := true, expired := false, code := none })
  ∧ (s.valid = false → s.expired = true →
        verifySession (.ok s) =
          { valid := false, expired := true, code := some .SESSION_EXPIRED })
  ∧ (s.valid = false → s.expired = false →
        verifySession (.ok s) =
          { valid := false, expired := false, code := some .SESSION_INVALID })
  ∧ verifySession (.error ()) =
      { valid := false, expired := false, code := some .DATABASE_ERROR } := by
  refine ⟨?_, ?_, ?_, rfl⟩
  · intro h
    simp [verifySession, h]
  · intro h1 h2
    simp [verifySession, h1, h2]
  · intro h1 h2
    simp [verifySession, h1, h2]

theorem verifySession_cases_witness :
    verifySession (.ok { valid := false, expired := true }) =
      { valid := false, expired := true, code := some .SESSION_EXPIRED } :=
  (verifySession_cases { valid := false, expired := true }).2.1 rfl rfl

/-- Claim C4: for a mutating method, the decrypt gate rejects an absent
body with the `MISSING_ENCRYPTED_PAYLOAD` bad-request error; passes a body
lacking a truthy `ciphertext`/`iv`/`authTag` through unmodified; and with
all three present attempts decryption, replacing the body with the parsed
plaintext on success and rejecting with the single generic
`INVALID_ENCRYPTED_FORMAT` bad-request error on either a decrypt failure
or a JSON parse failure (the same error for both, revealing nothing about
which part failed). -/
theorem decrypt_gate_spec {α : Type} (method : String)
    (hm : isMutatingMethod method = true) (body : Option ReqBody)
    (decryptFn : ReqBody → Except Unit String)
    (parseJson : String → Except Unit α) :
    (body = none →
        intercept method body decryptFn parseJson =
          .reject MISSING_ENCRYPTED_PAYLOAD)
  ∧ (∀ b, body = some b →
      ¬(jsTruthyStr b.ciphertext = true ∧ jsTruthyStr b.iv = true ∧
          jsTruthyStr b.authTag = true) →
        intercept method body decryptFn parseJson = .passthrough (some b))
  ∧ (∀ b plain parsed, body = some b →
      jsTruthyStr b.ciphertext = true → jsTruthyStr b.iv = true →
      jsTruthyStr b.authTag = true →
      decryptFn b = .ok plain → parseJson plain = .ok parsed →
        intercept method body decryptFn parseJson = .replaced parsed)
  ∧ (∀ b, body = some b →
      jsTruthyStr b.ciphertext = true → jsTruthyStr b.iv = true →
      jsTruthyStr b.authTag = true →
      decryptFn b = .error () →
        intercept method body decryptFn parseJson =
          .reject INVALID_ENCRYPTED_FORMAT)
  ∧ (∀ b plain, body = some b →
      jsTruthyStr b.ciphertext = true → jsTruthyStr b.iv = true →
      jsTruthyStr b.authTag = true →
      decryptFn b = .ok plain → parseJson plain = .error () →
        intercept method body decryptFn parseJson =
          .reject INVALID_ENCRYPTED_FORMAT) := by
  refine ⟨?_, ?_, ?_, ?_, ?_⟩
  · intro h
    subst h
    simp [intercept, hm]
  · intro b hb hfields
    subst hb
    have hfalse : (jsTruthyStr b.ciphertext && jsTruthyStr b.iv &&
        jsTruthyStr b.authTag) = false := by
      cases h1 : jsTruthyStr b.ciphertext <;>
        cases h2 : jsTruthyStr b.iv <;>
          cases h3 : jsTruthyStr b.authTag <;> simp_all
    simp [intercept, hm, hfalse]
  · intro b plain parsed hb h1 h2 h3 hd hp
    subst hb
    simp [intercept, hm, h1, h2, h3, hd, hp]
  · intro b hb h1 h2 h3 hd
    subst hb
    simp [intercept, hm, h1, h2, h3, hd]
  · intro b plain hb h1 h2 h3 hd hp
    subst hb
    simp [intercept, hm, h1, h2, h3, hd, hp]

theorem decrypt_gate_spec_witness :
    intercept (α := Unit) "POST" none (fun _ => .error ()) (fun _ => .error ())
      = .reject MISSING_ENCRYPTED_PAYLOAD :=
  (decrypt_gate_spec "POST" rfl none (fun _ => .error ())
    (fun _ => .error ())).1 rfl

/-- Claim C10: for a mutating method, an envelope field that is present
but equal to the empty string is falsy, so the gate treats it as absent:
the body passes through unmodified, independent of the decrypt function
(no decryption is attempted), and the request is not rejected. -/
theorem decrypt_gate_empty_field_passthrough {α : Type} (method : String)
    (hm : isMutatingMethod method = true) (b : ReqBody)
    (hempty : b.ciphertext = some "" ∨ b.iv = some "" ∨ b.authTag = some "")
    (decryptFn : ReqBody → Except Unit String)
    (parseJson : String → Except Unit α) :
    intercept method (some b) decryptFn parseJson = .passthrough (some b) := by
  have hfalse : (jsTruthyStr b.ciphertext && jsTruthyStr b.iv &&
      jsTruthyStr b.authTag) = false := by
    rcases hempty with h | h | h <;> simp [h, jsTruthyStr]
  simp [intercept, hm, hfalse]

theorem decrypt_gate_empty_field_passthrough_witness :
    intercept (α := Unit) "POST"
        (some { ciphertext := some "", iv := some "00", authTag := some "00",
                rest := [] })
        (fun _ => .ok "x") (fun _ => .ok ())
      = .passthrough (some { ciphertext := some "", iv := some "00",
                             authTag := some "00", rest := [] }) :=
  decrypt_gate_empty_field_passthrough "POST" rfl _ (Or.inl rfl) _ _

/-- Claim C5 counterexample: for a found and active key record whose
last-used update throws, `validateApiKey` returns `false` — the catch-all
swallows the `updateLastUsed` rejection — contradicting the claim that a
failure to record usage does not invalidate the validation. -/
theorem validateApiKey_update_failure_counterexample :
    validateApiKey
        (.ok (some { apiKey := "k", clientName := "c", isActive := true }))
        (.error ()) ≠ true := by
  decide

/-- Claim C5 (amended): `validateApiKey` returns `false` and never throws
when the record is not found, not active, or the lookup throws; when the
record is found and active it returns `true` only if recording the
last-used timestamp also succeeds — an update failure is caught and
yields `false` (fail closed), not `true`. -/
theorem validateApiKey_fail_closed (lookup : Except Unit (Option ApiKeyData))
    (update : Except Unit Unit) (kd : ApiKeyData) :
    (lookup = .error () → validateApiKey lookup update = false)
  ∧ (lookup = .ok none → validateApiKey lookup update = false)
  ∧ (lookup = .ok (some kd) → kd.isActive = false →
        validateApiKey lookup update = false)
  ∧ (lookup = .ok (some kd) → kd.isActive = true → update = .ok () →
        validateApiKey lookup update = true)
  ∧ (lookup = .ok (some kd) → kd.isActive = true → update = .error () →
        validateApiKey lookup update = false) := by
  refine ⟨?_, ?_, ?_, ?_, ?_⟩ <;> intro h
  · subst h; rfl
  · subst h; rfl
  · intro ha
    subst h
    simp [validateApiKey, ha]
  · intro ha hu
    subst h
    subst hu
    simp [validateApiKey, ha]
  · intro ha hu
    subst h
    subst hu
    simp [validateApiKey, ha]

theorem validateApiKey_fail_closed_witness :
    validateApiKey
        (.ok (some { apiKey := "k", clientName := "c", isActive := true }))
        (.ok ()) = true :=
  (validateApiKey_fail_closed
    (.ok (some { apiKey := "k", clientName := "c", isActive := true }))
    (.ok ()) { apiKey := "k", clientName := "c", isActive := true }).2.2.2.1
    rfl rfl rfl

/-- Claim C6: `login` checks its outcomes in order — missing input, then
unknown email, then wrong password — each failing with the corresponding
error response and leaving the store untouched; on success it returns a
fresh 64-lowercase-hex-character (256-bit) token and stores the session
with TTL equal to the configured expiration in seconds (default `86400`
when nothing is configured). -/
theorem login_spec (email password : String) (u : UserRecord)
    (lookup : Except Unit (Option UserRecord))
    (cmp : String → String → Except Unit Bool) (randBytes : List Nat)
    (cfg : Option String) (now : Int) (st : Store) (tn : Int)
    (hlen : randBytes.length = 32) (hbytes : ∀ b ∈ randBytes, b < 256)
    (httl : jsParseInt (jwtExpirationOrDefault cfg) = some tn)
    (htpos : 0 < tn) :
    (email = "" ∨ password = "" →
        login email password lookup cmp randBytes cfg now st =
          (createErrorResponse .MISSING_INFORMATION false now, st))
  ∧ (¬(email = "" ∨ password = "") → lookup = .ok none →
        login email password lookup cmp randBytes cfg now st =
          (createErrorResponse .EMAIL_NOT_FOUND false now, st))
  ∧ (¬(email = "" ∨ password = "") → lookup = .ok (some u) →
      cmp password u.hashedPassword = .ok false →
        login email password lookup cmp randBytes cfg now st =
          (createErrorResponse .INCORRECT_PASSWORD false now, st))
  ∧ (¬(email = "" ∨ password = "") → lookup = .ok (some u) →
      cmp password u.hashedPassword = .ok true →
        (login email password lookup cmp randBytes cfg now st).1.success = true
      ∧ (login email password lookup cmp randBytes cfg now st).1.sessionToken =
          some (generateSessionToken randBytes)
      ∧ (generateSessionToken randBytes).length = 64
      ∧ (∀ c ∈ (generateSessionToken randBytes).data, c ∈ lowerHexChars)
      ∧ (login email password lookup cmp randBytes cfg now st).2
            (sessionKey (generateSessionToken randBytes)) =
          some (jsonStringifyObj (loginSessionPayload email now), some (now + tn))
      ∧ (cfg = none → tn = 86400)) := by
  refine ⟨?_, ?_, ?_, ?_⟩
  · intro h
    simp only [login]
    rw [if_pos h]
  · intro h hlk
    simp only [login]
    rw [if_neg h, hlk]
  · intro h hlk hcmp
    simp only [login]
    rw [if_neg h, hlk]
    simp only
    rw [hcmp]
  · intro h hlk hcmp
    have hso := storeSession_ok st now (generateSessionToken randBytes)
      (loginSessionPayload email now) tn htpos
    have hlogin : login email password lookup cmp randBytes cfg now st =
        ({ success := true,
           sessionToken := some (generateSessionToken randBytes),
           message := LOGIN_SUCCESSFUL_MSG, code := none, timestamp := now },
         redisSetEx
           (redisSetEx st now (sessionKey (generateSessionToken randBytes))
             (jsonStringifyObj (loginSessionPayload email now)) tn)
           now (metadataKey (generateSessionToken randBytes))
           (jsonStringifyObj
             (sessionMetadataObj now tn (generateSessionToken randBytes)))
           (tn * 2)) := by
      simp only [login]
      rw [if_neg h, hlk]
      simp only
      rw [hcmp]
      simp only
      rw [httl]
      simp only
      rw [hso]
    refine ⟨by rw [hlogin], by rw [hlogin], ?_, ?_, ?_, ?_⟩
    · show (bytesToHexChars randBytes).length = 64
      rw [bytesToHexChars_length, hlen]
    · intro c hc
      exact bytesToHexChars_mem randBytes hbytes c hc
    · rw [hlogin]
      show redisSetEx _ now (metadataKey (generateSessionToken randBytes)) _
          (tn * 2) (sessionKey (generateSessionToken randBytes)) = _
      rw [redisSetEx_other _ _ _ _ _ _
        (sessionKey_ne_metadataKey (generateSessionToken randBytes)),
        redisSetEx_self]
    · intro hc
      subst hc
      have hd : jsParseInt (jwtExpirationOrDefault none) = some 86400 := by
        decide
      have h2 : some (86400 : Int) = some tn := hd.symm.trans httl
      exact (Option.some.inj h2).symm

theorem login_spec_witness :
    (login "u@x.com" "pw" (.ok (some { email := "u@x.com", hashedPassword := "h" }))
        (fun _ _ => .ok true) (List.replicate 32 0) none 0 redisEmpty).1.success
      = true := by
  refine ((login_spec "u@x.com" "pw" { email := "u@x.com", hashedPassword := "h" }
    (.ok (some { email := "u@x.com", hashedPassword := "h" }))
    (fun _ _ => .ok true) (List.replicate 32 0) none 0 redisEmpty 86400
    (by decide) (by decide) (by decide) (by decide)).2.2.2 ?_ rfl rfl).1
  intro hor
  rcases hor with h | h <;> exact absurd h (by decide)

/-- Claim C7: decrypting the envelope produced by `encrypt` under the same
key and algorithm returns the plaintext, for every IV the encryptor
chooses.  The AES-256-GCM core (the external `crypto` library) is modelled
by its mode structure: an arbitrary per-index keystream `ks` and tag
function `mac`, both determined by the key and IV. -/
theorem decrypt_encrypt_roundtrip (ks : Nat → Nat) (mac : List Nat → List Nat)
    (ivBytes data : List Nat) (hks : ∀ i, ks i < 256)
    (hdata : ∀ b ∈ data, b < 256) (hmac : ∀ l, ∀ b ∈ mac l, b < 256) :
    decrypt ks mac (encrypt ks mac ivBytes data) = .ok data := by
  have hct : ∀ b ∈ xorStream ks 0 data, b < 256 :=
    xorStream_lt ks hks 0 data hdata
  show (if hexDecode (String.mk (bytesToHexChars (mac (xorStream ks 0 data)))).data
        = mac (hexDecode (String.mk (bytesToHexChars (xorStream ks 0 data))).data)
      then Except.ok (xorStream ks 0
        (hexDecode (String.mk (bytesToHexChars (xorStream ks 0 data))).data))
      else Except.error ()) = .ok data
  rw [show (String.mk (bytesToHexChars (xorStream ks 0 data))).data
      = bytesToHexChars (xorStream ks 0 data) from rfl,
    show (String.mk (bytesToHexChars (mac (xorStream ks 0 data)))).data
      = bytesToHexChars (mac (xorStream ks 0 data)) from rfl,
    hexDecode_bytesToHexChars _ hct,
    hexDecode_bytesToHexChars _ (hmac (xorStream ks 0 data)),
    if_pos rfl, xorStream_xorStream]

theorem decrypt_encrypt_roundtrip_witness :
    decrypt (fun i => i % 256) (fun _ => [])
        (encrypt (fun i => i % 256) (fun _ => []) [0, 1] [104, 105])
      = .ok [104, 105] :=
  decrypt_encrypt_roundtrip (fun i => i % 256) (fun _ => []) [0, 1] [104, 105]
    (fun i => Nat.mod_lt i (by decide)) (by decide)
    (fun l b hb => by cases hb)

/-- Claim C8 counterexample: the email-not-found outcome of `login` has
`success = false` but its `code` field is `none` — `createErrorResponse`
never sets the DTO's optional `code`, so no error-code field identifies
the failure. -/
theorem login_error_code_counterexample :
    (login "u@x.com" "pw" (.ok none) (fun _ _ => .ok false) [] none 0
        redisEmpty).1.code = none
  ∧ (login "u@x.com" "pw" (.ok none) (fun _ _ => .ok false) [] none 0
        redisEmpty).1.success = false := by
  constructor <;> rfl

/-- Claim C8 (amended): every authentication-error response built by
`createErrorResponse` has the requested `success` flag, a message that
uniquely identifies the failure (the message map is injective), no session
token, and its optional `code` field left unset — the error code is
surfaced through the message only, not as a field. -/
theorem errorResponse_no_code_field (code : ErrorCode) (success : Bool)
    (now : Int) :
    (createErrorResponse code success now).success = success
  ∧ (createErrorResponse code success now).message = ERROR_CODE_MESSAGES code
  ∧ (createErrorResponse code success now).sessionToken = none
  ∧ (createErrorResponse code success now).code = none
  ∧ (∀ c2 : ErrorCode, ERROR_CODE_MESSAGES code = ERROR_CODE_MESSAGES c2 →
        code = c2) := by
  refine ⟨rfl, rfl, rfl, rfl, ?_⟩
  revert code
  decide

theorem errorResponse_no_code_field_witness :
    (createErrorResponse .EMAIL_NOT_FOUND false 0).code = none :=
  (errorResponse_no_code_field .EMAIL_NOT_FOUND false 0).2.2.2.1

/-- Claim C9 counterexample: a configured key string shorter than 32
characters whose hex interpretation is not 32 bytes is rejected by
`ApiEncryptionHelper`'s constructor rather than derived by padding and
truncation. -/
theorem keyDerivation_short_key_counterexample :
    apiEncryptionHelperInit "shortkey" =
        .error "Encryption key must be at least 32 characters long"
  ∧ (hexDecode "shortkey".data).length ≠ 32 := by
  constructor
  · rfl
  · decide

/-- Claim C9 (amended: for key strings of at least 32 characters): when the
hex interpretation of the key string is exactly 32 bytes it is used as-is;
otherwise the 32-byte key is derived by right-padding the raw (ASCII)
bytes with the filler byte `48` (the character `'0'`) and truncating to 32
bytes.  The derived key always has 32 bytes, each a valid byte value, and
`EncryptionService.initializeKeys` uses the same derivation for such a
configured key.  Key strings shorter than 32 characters are instead
rejected by the helper's constructor. -/
theorem keyDerivation_pad_truncate (keyStr : String) (envKey : String)
    (h32 : 32 ≤ keyStr.length)
    (hascii : ∀ c ∈ keyStr.data, c.toNat < 128) :
    ((hexDecode keyStr.data).length = 32 →
        apiEncryptionHelperInit keyStr = .ok (hexDecode keyStr.data))
  ∧ ((hexDecode keyStr.data).length ≠ 32 →
        apiEncryptionHelperInit keyStr =
          .ok ((keyStr.data.map Char.toNat ++
                List.replicate (32 - keyStr.length) 48).take 32))
  ∧ (deriveKeyBytes keyStr).length = 32
  ∧ (∀ b ∈ deriveKeyBytes keyStr, b < 256)
  ∧ initializeKeysKey (some keyStr) envKey = deriveKeyBytes keyStr := by
  have hlen : keyStr.length = keyStr.data.length := rfl
  have hinit : apiEncryptionHelperInit keyStr = .ok (deriveKeyBytes keyStr) := by
    unfold apiEncryptionHelperInit
    rw [if_neg (by omega)]
  have hpad : asciiBytes (jsSubstringTo (jsPadEnd keyStr 32 '0') 32) =
      (keyStr.data.map Char.toNat ++
        List.replicate (32 - keyStr.length) 48).take 32 := by
    show ((keyStr.data ++
        List.replicate (32 - keyStr.data.length) '0').take 32).map Char.toNat = _
    rw [List.map_take, List.map_append, List.map_replicate]
    rfl
  refine ⟨?_, ?_, ?_, ?_, ?_⟩
  · intro hhex
    rw [hinit, deriveKeyBytes, if_pos hhex]
  · intro hhex
    rw [hinit, deriveKeyBytes, if_neg hhex, hpad]
  · rw [deriveKeyBytes]
    split_ifs with hhex
    · exact hhex
    · rw [hpad]
      simp only [List.length_take, List.length_append, List.length_map,
        List.length_replicate]
      omega
  · intro b hb
    rw [deriveKeyBytes] at hb
    split_ifs at hb with hhex
    · exact hexDecode_lt keyStr.data b hb
    · rw [hpad] at hb
      have hb2 := List.mem_of_mem_take hb
      rw [List.mem_append] at hb2
      rcases hb2 with hb2 | hb2
      · rw [List.mem_map] at hb2
        obtain ⟨c, hc, hbc⟩ := hb2
        have := hascii c hc
        omega
      · rw [List.eq_of_mem_replicate hb2]
        omega
  · have hred : initializeKeysKey (some keyStr) envKey =
        if keyStr.length < 32 then
          (if 32 ≤ envKey.length then hexDecode envKey.data
           else asciiBytes (jsSubstringTo (jsPadEnd envKey 32 '0') 32))
        else deriveKeyBytes keyStr := rfl
    rw [hred, if_neg (by omega)]

theorem keyDerivation_pad_truncate_witness :
    apiEncryptionHelperInit "0123456789abcdef0123456789abcdef0123456789abcdef0123456789abcdef"
      = .ok (hexDecode
          "0123456789abcdef0123456789abcdef0123456789abcdef0123456789abcdef".data) :=
  (keyDerivation_pad_truncate
    "0123456789abcdef0123456789abcdef0123456789abcdef0123456789abcdef" ""
    (by decide) (by decide)).1 (by decide)

end Protego
